import Mathlib

/-!
Verification of the camera ingestion / face-recognition core of the
`class` surveillance tool, shallowly embedded from
`src/core/camera_manager.py` and `src/core/face_detection.py`.

Python dictionaries keyed by camera id are modelled as association lists
`List (Nat × α)`; `queue.Queue(maxsize=2)` as a FIFO list with a capacity
bound; IEEE-754 doubles as exact rationals, with the one float behaviour
the code can actually hit — `0.0 / 0.0 = nan` in the cosine-similarity
division — modelled explicitly by an `Option`-style score type.
Threads are modelled by their alive flag in the manager's registry plus a
pure function giving the capture thread body's effect on its inputs.
-/

set_option autoImplicit false

/-! ## Association-list model of Python dicts keyed by camera id -/

/-- Lookup in a Python dict modelled as an association list. -/
def alGet {α : Type} : List (Nat × α) → Nat → Option α
  | [], _ => none
  | (k, v) :: rest, key => if k = key then some v else alGet rest key

/-- `d[key] = v`: replace in place if the key exists, else append. -/
def alSet {α : Type} : List (Nat × α) → Nat → α → List (Nat × α)
  | [], key, v => [(key, v)]
  | (k, w) :: rest, key, v =>
    if k = key then (k, v) :: rest else (k, w) :: alSet rest key v

/-- `del d[key]`. -/
def alDel {α : Type} : List (Nat × α) → Nat → List (Nat × α)
  | [], _ => []
  | (k, w) :: rest, key => if k = key then rest else (k, w) :: alDel rest key

/-! ## FrameBuffer: `queue.Queue(maxsize=2)` (FIFO with a capacity bound) -/

/-- A Python `queue.Queue`: FIFO list of items plus its `maxsize`. -/
structure FrameQueue (α : Type) where
  maxsize : Nat
  items : List α
deriving DecidableEq, Repr

/-- `Queue(maxsize=n)` freshly constructed. -/
def emptyQueue (α : Type) (n : Nat) : FrameQueue α := ⟨n, []⟩

/-- `Queue.qsize()`. -/
def FrameQueue.qsize {α : Type} (q : FrameQueue α) : Nat := q.items.length

/-- `Queue.full()`: true when `0 < maxsize <= qsize`. -/
def FrameQueue.isFull {α : Type} (q : FrameQueue α) : Bool :=
  decide (0 < q.maxsize ∧ q.maxsize ≤ q.items.length)

/-- `Queue.get_nowait()`: returns the oldest item (FIFO head) and the
queue without it, or `none` (`queue.Empty`) leaving the queue unchanged. -/
def FrameQueue.getNowait {α : Type} (q : FrameQueue α) :
    Option α × FrameQueue α :=
  match q.items with
  | [] => (none, q)
  | x :: rest => (some x, ⟨q.maxsize, rest⟩)

/-- `Queue.put(x, block=False)`: appends at the tail unless full; the
Bool records whether the put succeeded (`queue.Full` otherwise). -/
def FrameQueue.putNowait {α : Type} (q : FrameQueue α) (x : α) :
    Bool × FrameQueue α :=
  if q.isFull then (false, q) else (true, ⟨q.maxsize, q.items ++ [x]⟩)

/-- Producer-side publish, `camera_manager.py` lines 304-316: when the
queue is full, `get_nowait()` discards the oldest entry, then
`put(frame, block=False)` inserts (a `queue.Full` is swallowed). -/
def publishFrame {α : Type} (q : FrameQueue α) (x : α) : FrameQueue α :=
  let q1 := if q.isFull then (q.getNowait).2 else q
  (q1.putNowait x).2

/-! ## Frames and the configured rotation -/

/-- A captured image; rotation is tracked structurally since no claim
depends on pixel contents. -/
inductive Frame where
  | cap : Nat → Frame
  | rot90 : Frame → Frame
  | rot180 : Frame → Frame
  | rot270 : Frame → Frame
deriving DecidableEq, Repr

/-- `cv2.rotate` dispatch on `cam_config.rotate` (lines 297-302):
90, 180 and 270 rotate, any other value leaves the frame unchanged. -/
def applyRot (rot : Nat) (f : Frame) : Frame :=
  if rot = 90 then Frame.rot90 f
  else if rot = 180 then Frame.rot180 f
  else if rot = 270 then Frame.rot270 f
  else f

/-! ## Camera configuration (`CameraConfig`, YAML loading) -/

/-- The duck-typed `source` field: a local device index (YAML integer)
or a stream URI (YAML string). -/
inductive CamSource where
  | idx : Nat → CamSource
  | uri : String → CamSource
deriving DecidableEq, Repr

/-- The `CameraConfig` dataclass (`camera_manager.py` lines 12-21). -/
structure CameraConfig where
  id : Nat
  name : String
  source : CamSource
  enabled : Bool
  width : Nat
  height : Nat
  fps : Nat
  rotate : Nat
deriving DecidableEq, Repr

/-- One entry of the parsed YAML `cameras:` list; `none` fields model
keys absent from the mapping (required-key access then raises). -/
structure RawCam where
  id : Option Nat
  name : Option String
  source : Option CamSource
  enabled : Option Bool
  resolution : Option (Nat × Nat)
  fps : Option Nat
  rotate : Option Nat
deriving DecidableEq, Repr

/-- Building one `CameraConfig` from a raw entry (`load_config` lines
97-107): `id`, `source` and `resolution.width/height` are required
(`KeyError` → `none`); `name`, `enabled`, `fps`, `rotate` take the
defaults `f'Camera {id}'`, `True`, `30`, `0`. -/
def buildCameraConfig (r : RawCam) : Option CameraConfig :=
  match r.id, r.source, r.resolution with
  | some i, some src, some (w, h) =>
    some ⟨i, r.name.getD ("Camera " ++ toString i), src,
          r.enabled.getD true, w, h, r.fps.getD 30, r.rotate.getD 0⟩
  | _, _, _ => none

/-- What the configuration file yields to `load_config`:
`ioError` — the open or `yaml.safe_load` raises (before any mutation);
`notAMapping` — the document parses but is not a mapping (e.g. an empty
file yields `None`), so `config.get` raises after `self.cameras.clear()`;
`mapping cams` — a mapping whose `cameras` list is `cams` (an absent
`cameras` key is `mapping []` via the `.get('cameras', [])` default). -/
inductive ConfigSrc where
  | ioError : ConfigSrc
  | notAMapping : ConfigSrc
  | mapping : List RawCam → ConfigSrc
deriving DecidableEq, Repr

/-! ## CameraManager state and operations -/

/-- The mutable registries of `CameraManager.__init__` (lines 24-31).
A capture thread is modelled by its `is_alive()` flag; a capture object
by its `isOpened()` flag; a stop event by its `is_set()` flag. -/
structure MgrState where
  cameras : List (Nat × CameraConfig)
  captureThreads : List (Nat × Bool)
  captureObjects : List (Nat × Bool)
  stopEvents : List (Nat × Bool)
  frameQueues : List (Nat × FrameQueue Frame)
deriving DecidableEq, Repr

/-- The manager before any configuration is loaded. -/
def initState : MgrState := ⟨[], [], [], [], []⟩

/-- The `for` loop of `load_config` (lines 96-107): builds each entry in
order into `self.cameras`; a malformed entry raises, aborting the loop
and leaving the entries already built in place. -/
def loadCams (st : MgrState) : List RawCam → Bool × MgrState
  | [] => (true, st)
  | r :: rest =>
    match buildCameraConfig r with
    | some cfg => loadCams { st with cameras := alSet st.cameras cfg.id cfg } rest
    | none => (false, st)

/-- `CameraManager.load_config` (lines 89-113). The Bool is `true` when
the load completes, `false` when the method re-raises. `cameras.clear()`
runs after parsing but before any entry is built. -/
def load_config (st : MgrState) (src : ConfigSrc) : Bool × MgrState :=
  match src with
  | ConfigSrc.ioError => (false, st)
  | ConfigSrc.notAMapping => (false, { st with cameras := [] })
  | ConfigSrc.mapping cams => loadCams { st with cameras := [] } cams

/-- `_validate_camera_source` (lines 115-153): an `http`/`rtsp` URI is
probed with an HTTP HEAD (outcome supplied by `netOk`); a local index,
and any other string, is accepted unconditionally. -/
def validateCameraSource (netOk : String → Bool) (source : CamSource) : Bool :=
  match source with
  | CamSource.uri s =>
    if s.startsWith "http" || s.startsWith "rtsp" then netOk s else true
  | CamSource.idx _ => true

/-- `_cleanup_camera_thread` (lines 33-87): signals the stop event,
joins the thread, then deletes the thread, capture object, frame queue
and stop event entries for the id. -/
def cleanupCameraThread (st : MgrState) (camId : Nat) : MgrState :=
  { st with
    captureThreads := alDel st.captureThreads camId,
    captureObjects := alDel st.captureObjects camId,
    frameQueues := alDel st.frameQueues camId,
    stopEvents := alDel st.stopEvents camId }

/-- `CameraManager.start_camera` (lines 171-216): not-found, disabled
and validation-failed ids return `False`; otherwise any existing thread
is cleaned up, a fresh `Queue(maxsize=2)`, stop event and (alive) thread
are registered, and the method returns `True` — before the thread body
has attempted to open the device. -/
def start_camera (netOk : String → Bool) (st : MgrState) (camId : Nat) :
    Bool × MgrState :=
  match alGet st.cameras camId with
  | none => (false, st)
  | some cfg =>
    if ¬ cfg.enabled then (false, st)
    else if ¬ validateCameraSource netOk cfg.source then (false, st)
    else
      let st1 := if (alGet st.captureThreads camId).isSome
                 then cleanupCameraThread st camId else st
      (true,
       { st1 with
         frameQueues := alSet st1.frameQueues camId (emptyQueue Frame 2),
         stopEvents := alSet st1.stopEvents camId false,
         captureThreads := alSet st1.captureThreads camId true })

/-- `CameraManager.stop_camera` (lines 218-224): cleans up and returns
`True` when a thread is registered for the id, else returns `False`. -/
def stop_camera (st : MgrState) (camId : Nat) : Bool × MgrState :=
  if (alGet st.captureThreads camId).isSome
  then (true, cleanupCameraThread st camId)
  else (false, st)

/-- `CameraManager.get_frame` (lines 342-350): `None` for an id with no
queue, else `get_nowait()` with `queue.Empty` mapped to `None`. -/
def get_frame (st : MgrState) (camId : Nat) : Option Frame × MgrState :=
  match alGet st.frameQueues camId with
  | none => (none, st)
  | some q =>
    let r := q.getNowait
    (r.1, { st with frameQueues := alSet st.frameQueues camId r.2 })

/-- The status dict built by `get_camera_status` (lines 369-376). -/
structure CamStatus where
  id : Nat
  name : String
  running : Bool
  frameQueueSize : Nat
  enabled : Bool
  source : CamSource
deriving DecidableEq, Repr

/-- `CameraManager.get_camera_status` (lines 361-377): `{}` (here
`none`) for an unconfigured id; `running` is `cam_id in capture_threads
and capture_threads[cam_id].is_alive()`. -/
def get_camera_status (st : MgrState) (camId : Nat) : Option CamStatus :=
  match alGet st.cameras camId with
  | none => none
  | some cfg =>
    some ⟨camId, cfg.name,
          (alGet st.captureThreads camId).getD false,
          ((alGet st.frameQueues camId).map (FrameQueue.qsize)).getD 0,
          cfg.enabled, cfg.source⟩

/-- The capture thread function returning: the `Thread.is_alive()` flag
for its id drops to `False`, while the (dead) thread object stays in
`capture_threads` until a cleanup removes it. -/
def markThreadDead (st : MgrState) (camId : Nat) : MgrState :=
  match alGet st.captureThreads camId with
  | some _ => { st with captureThreads := alSet st.captureThreads camId false }
  | none => st

/-! ## The capture thread body (`_capture_frames`, lines 226-340)

The stop event is modelled as never set during the runs the claims
exercise (no `stop_camera` is issued), so the `while not
stop_events[cam_id].is_set()` conditions are `True`. -/

/-- Outcome of the device-open retry loop. -/
structure OpenRes where
  attempts : Nat
  retrySleeps : Nat
  opened : Bool
deriving DecidableEq, Repr

/-- The open retry loop (lines 239-268): up to `max_retries = 3`
attempts; after a failed attempt that is not the last, the thread
sleeps `retry_delay = 2.0` seconds (counted by `retrySleeps`); after
the last failed attempt the function returns. `openOk n` is whether the
n-th attempt (0-based) yields an opened `cv2.VideoCapture`. The `fuel`
argument is `max_retries - retry_count`. -/
def openLoop (openOk : Nat → Bool) : Nat → Nat → Nat → OpenRes
  | 0, attempts, sleeps => ⟨attempts, sleeps, false⟩
  | fuel + 1, attempts, sleeps =>
    if openOk attempts then ⟨attempts + 1, sleeps, true⟩
    else if fuel = 0 then ⟨attempts + 1, sleeps, false⟩
    else openLoop openOk fuel (attempts + 1) (sleeps + 1)

/-- Outcome of the frame-read loop. -/
structure ReadLoopRes where
  queue : FrameQueue Frame
  failures : Nat
  brokeOnFailures : Bool
deriving DecidableEq, Repr

/-- The frame-read loop (lines 274-326) over a finite schedule of read
outcomes (`none` = `cap.read()` failed). A failed read increments
`consecutive_failures` and breaks the loop once it reaches
`max_consecutive_failures = 10`; a successful read resets the counter
to zero, applies the configured rotation and publishes. When the
schedule is exhausted with no break the loop is still live
(`brokeOnFailures = false`). -/
def captureReadLoop (rot : Nat) (q : FrameQueue Frame) (failures : Nat) :
    List (Option Frame) → ReadLoopRes
  | [] => ⟨q, failures, false⟩
  | none :: rest =>
    if 10 ≤ failures + 1 then ⟨q, failures + 1, true⟩
    else captureReadLoop rot q (failures + 1) rest
  | some f :: rest =>
    captureReadLoop rot (publishFrame q (applyRot rot f)) 0 rest

/-- Overall effect of one run of the `_capture_frames` thread body. -/
structure WorkerOutcome where
  openAttempts : Nat
  retrySleeps : Nat
  opened : Bool
  finalQueue : FrameQueue Frame
  finalFailures : Nat
  brokeOnFailures : Bool
  capReleased : Bool
deriving DecidableEq, Repr

/-- `_capture_frames` for camera config `cfg` with frame queue `q`:
the open retry loop, then (only if a capture opened) the read loop over
`reads`; the `finally` block releases the capture object whenever one
was assigned, i.e. whenever at least one open attempt was made. -/
def captureFrames (openOk : Nat → Bool) (reads : List (Option Frame))
    (cfg : CameraConfig) (q : FrameQueue Frame) : WorkerOutcome :=
  let o := openLoop openOk 3 0 0
  if ¬ o.opened then
    ⟨o.attempts, o.retrySleeps, false, q, 0, false, decide (0 < o.attempts)⟩
  else
    let r := captureReadLoop cfg.rotate q 0 reads
    ⟨o.attempts, o.retrySleeps, true, r.queue, r.failures, r.brokeOnFailures, true⟩

/-! ## Recognition engine (`face_detection.py`)

Float arithmetic is modelled exactly over `ℚ`. The one non-finite float
the similarity computation can produce is `0.0 / 0.0 = nan` (the
numerator `dot(k, e)` is exactly `0` whenever the denominator
`|k| * |e|` is `0`, since one of the vectors is then the zero vector).
A similarity value `n / sqrt d` (with `d = dot k k * dot e e > 0`) is
kept in the exact form `Score.val n d`; comparisons square through,
which is order-faithful because `x ↦ x * |x|` is strictly monotone. -/

/-- A float similarity value: `nan`, or `n / sqrt d` with `d > 0`. -/
inductive Score where
  | nan : Score
  | val : ℚ → ℚ → Score
deriving DecidableEq, Repr

/-- Float comparison `s > t` against a (finite, rational) threshold:
any comparison with `nan` is false; `n / sqrt d > t` is decided by sign
analysis and squaring. -/
def Score.gtq : Score → ℚ → Bool
  | Score.nan, _ => false
  | Score.val n d, t =>
    if 0 ≤ t then decide (0 < n ∧ t ^ 2 * d < n ^ 2)
    else decide (0 ≤ n ∨ n ^ 2 < t ^ 2 * d)

/-- Float comparison between two finite similarity values (`nan` never
compares true), used by the running-maximum scan. -/
def Score.ltv : Score → Score → Bool
  | Score.nan, _ => false
  | _, Score.nan => false
  | Score.val n1 d1, Score.val n2 d2 =>
    if 0 ≤ n1 then
      if 0 ≤ n2 then decide (n1 ^ 2 * d2 < n2 ^ 2 * d1) else false
    else
      if 0 ≤ n2 then true else decide (n2 ^ 2 * d1 < n1 ^ 2 * d2)

/-- The `Face` dataclass (`face_detection.py` lines 14-22). -/
structure Face where
  bbox : List ℚ
  kps : List (ℚ × ℚ)
  det_score : ℚ
  embedding : List ℚ
  age : Option Int
  gender : Option String
  face_img : Option Frame
deriving DecidableEq, Repr

/-- The `KnownFace` dataclass (`face_detection.py` lines 24-34). -/
structure KnownFace where
  name : String
  lastname : String
  age : Int
  cedula : String
  birth_date : String
  crime : String
  case_number : String
  embedding : List ℚ
  image_path : String
deriving DecidableEq, Repr

/-- `np.dot` on equal-length 1-d vectors. -/
def dotQ (a b : List ℚ) : ℚ :=
  ((a.zip b).map (fun p => p.1 * p.2)).foldl (· + ·) 0

/-- One entry of the `similarities` array (line 189-191):
`dot(k, e) / (norm k * norm e)`. The denominator is
`sqrt (dot k k * dot e e)`; when it is zero the numerator is zero too and
numpy yields `0.0 / 0.0 = nan` (a warning, not an exception). -/
def cosineSim (k e : List ℚ) : Score :=
  let d := dotQ k k * dotQ e e
  if d = 0 then Score.nan else Score.val (dotQ k e) d

/-- One step of numpy's `argmax` running-maximum scan: once the best is
`nan` it is never replaced (first nan wins); otherwise a `nan`
candidate, or a strictly greater candidate, replaces the best (ties
keep the earlier entry). -/
def bestStep (best cand : KnownFace × Score) : KnownFace × Score :=
  if best.2 = Score.nan then best
  else if cand.2 = Score.nan then cand
  else if Score.ltv best.2 cand.2 then cand else best

/-- `max_idx = np.argmax(similarities)` followed by
`self.known_faces[max_idx]` (lines 193-194), carrying the gallery entry
along with its similarity. -/
def bestMatch : List (KnownFace × Score) → Option (KnownFace × Score)
  | [] => none
  | x :: rest => some (rest.foldl bestStep x)

/-- The per-face body of the `recognize_faces` loop (lines 184-199):
a `None` or zero-length embedding short-circuits to `(face, None, 0.0)`;
otherwise the best gallery similarity decides match versus unknown by a
strict comparison with the threshold, the score being attached either
way. -/
def recognizeOne (known : List KnownFace) (thr : ℚ) (face : Face) :
    Face × Option KnownFace × Score :=
  if face.embedding.isEmpty then (face, none, Score.val 0 1)
  else
    match bestMatch (known.map (fun k => (k, cosineSim k.embedding face.embedding))) with
    | none => (face, none, Score.val 0 1)
    | some (k, s) => if s.gtq thr then (face, some k, s) else (face, none, s)

/-- Whether `np.array([kf.embedding for kf in known_faces])` succeeds:
all gallery embeddings must have the same length (an inhomogeneous list
raises, and the `except` returns every face as unknown with score 0). -/
def sameWidths : List KnownFace → Bool
  | [] => true
  | k :: ks => ks.all (fun k2 => k2.embedding.length == k.embedding.length)

/-- The row length of the stacked gallery-embedding matrix. -/
def galleryWidth : List KnownFace → Nat
  | [] => 0
  | k :: _ => k.embedding.length

/-- `FaceDetector.recognize_faces` (lines 174-205). An empty gallery
returns every face unknown with score 0 before any similarity work.
The two guard branches model the `except` path: stacking an
inhomogeneous gallery, or `np.dot` on a face embedding of the wrong
length (zero-length embeddings are short-circuited before the dot),
raises, and the handler returns the whole fresh all-unknown list. -/
def recognizeFaces (known : List KnownFace) (thr : ℚ) (faces : List Face) :
    List (Face × Option KnownFace × Score) :=
  if known.isEmpty then faces.map (fun f => (f, none, Score.val 0 1))
  else if ¬ sameWidths known then faces.map (fun f => (f, none, Score.val 0 1))
  else if ¬ faces.all
      (fun f => f.embedding.isEmpty || f.embedding.length == galleryWidth known) then
    faces.map (fun f => (f, none, Score.val 0 1))
  else faces.map (recognizeOne known thr)

/-! ## Gallery reload from the database (`load_known_faces_from_db`,
`face_detection.py` lines 121-149)

The stored embedding blob is a byte string; `np.frombuffer(b,
dtype=np.float32)` raises (`ValueError`) exactly when the byte length
is not a multiple of 4, and otherwise yields one float per 4 bytes with
no check of how many. The numeric interpretation of a well-formed
buffer is abstracted as a parameter `dec`; every theorem that needs it
assumes only the `np.frombuffer` length law
`(dec b).length = b.length / 4`. -/

/-- One row returned by `database.get_known_faces()`; `embedding` is
the raw byte blob. -/
structure DbFaceRecord where
  name : String
  lastname : String
  age : Int
  cedula : String
  birth_date : String
  crime : String
  case_number : String
  embedding : List Nat
  image_path : String
deriving DecidableEq, Repr

/-- Whether `np.frombuffer(b, dtype=np.float32)` succeeds. -/
def frombufferOk (b : List Nat) : Bool := b.length % 4 == 0

/-- The `KnownFace` appended for one successfully decoded row
(lines 131-141). -/
def toKnownFace (dec : List Nat → List ℚ) (r : DbFaceRecord) : KnownFace :=
  ⟨r.name, r.lastname, r.age, r.cedula, r.birth_date, r.crime,
   r.case_number, dec r.embedding, r.image_path⟩

/-- The row loop of `load_known_faces_from_db` (lines 127-144): each
row is decoded inside its own `try`; a row whose blob `np.frombuffer`
rejects is logged and skipped (`continue`), every other row is appended
in order. No dimensionality check is performed on the decoded vector. -/
def loadDbRows (dec : List Nat → List ℚ) : List DbFaceRecord → List KnownFace
  | [] => []
  | r :: rest =>
    if frombufferOk r.embedding then toKnownFace dec r :: loadDbRows dec rest
    else loadDbRows dec rest

/-- `FaceDetector.load_known_faces_from_db`: `known_faces.clear()` runs
first; `dbResult = none` models `database.get_known_faces()` raising,
which the outer `except` swallows, leaving the gallery empty. The prior
gallery never survives into the result. -/
def reloadGalleryFromDb (dec : List Nat → List ℚ) (prior : List KnownFace)
    (dbResult : Option (List DbFaceRecord)) : List KnownFace :=
  match dbResult with
  | none => []
  | some rows => loadDbRows dec rows

/-- A concrete `np.frombuffer` interpretation obeying the length law,
used to instantiate counterexamples and witnesses. -/
def decZeros (b : List Nat) : List ℚ := List.replicate (b.length / 4) 0

/-! ## One step of the `load_config` entry fold, for stating what the
partially-applied configuration contains -/

/-- The effect of one (valid) `cameras:` entry on the configuration
dict: `self.cameras[cam_id] = CameraConfig(...)`. -/
def insertRaw (acc : List (Nat × CameraConfig)) (r : RawCam) :
    List (Nat × CameraConfig) :=
  match buildCameraConfig r with
  | some cfg => alSet acc cfg.id cfg
  | none => acc

/-! ## Concrete instances used by counterexamples and witnesses -/

/-- A face whose embedding is the 1-vector `[1]`. -/
def cFaceA : Face := ⟨[], [], 1, [1], none, none, none⟩

/-- A face with a nonempty, zero-norm embedding `[0]`. -/
def cFaceZero : Face := ⟨[], [], 1, [0], none, none, none⟩

/-- A gallery identity with embedding `[1]`. -/
def cKnownA : KnownFace :=
  ⟨"Ana", "Diaz", 30, "V-1", "1990-01-01", "theft", "7", [1], "img/a.jpg"⟩

/-- A valid YAML camera entry with id 1 and a local-index source. -/
def cRaw1 : RawCam :=
  ⟨some 1, none, some (CamSource.idx 5), none, some (640, 480), none, none⟩

/-- The `CameraConfig` that `cRaw1` builds to. -/
def cCfg1 : CameraConfig :=
  ⟨1, "Camera 1", CamSource.idx 5, true, 640, 480, 30, 0⟩

/-- A malformed YAML camera entry: the required `source` key is absent. -/
def cRawBad : RawCam := ⟨some 2, none, none, none, some (320, 240), none, none⟩

/-- A configuration for camera id 7, standing for a previously loaded
configuration. -/
def cCfg7 : CameraConfig :=
  ⟨7, "Camera 7", CamSource.idx 0, true, 10, 10, 30, 0⟩

/-- A manager state whose prior configuration holds camera 7. -/
def cStPrior : MgrState := ⟨[(7, cCfg7)], [], [], [], []⟩

/-- The manager after loading a configuration holding only `cRaw1`. -/
def cStA : MgrState := (load_config initState (ConfigSrc.mapping [cRaw1])).2

/-- `cStA` after `start_camera(1)` (validation passes: local index). -/
def cStB : MgrState := (start_camera (fun _ => false) cStA 1).2

/-- `cStB` after reloading an empty camera configuration: camera 1 is
no longer configured, but its worker registrations survive. -/
def cStC : MgrState := (load_config cStB (ConfigSrc.mapping [])).2

/-- A DB row whose 8-byte blob decodes to a 2-float embedding. -/
def cDbGood : DbFaceRecord :=
  ⟨"Gina", "Perez", 20, "V-2", "2000-05-05", "fraud", "8",
   [0, 0, 0, 0, 0, 0, 0, 0], "img/g.jpg"⟩

/-- A DB row whose 4-byte blob decodes to a 1-float embedding — the
wrong dimensionality relative to `cDbGood`, but accepted by
`np.frombuffer`. -/
def cDbWrongDim : DbFaceRecord :=
  ⟨"Wanda", "Sosa", 21, "V-3", "1999-03-03", "arson", "9",
   [0, 0, 0, 0], "img/w.jpg"⟩

/-- A DB row whose 3-byte blob `np.frombuffer` rejects
(not a multiple of the float32 item size). -/
def cDbBadLen : DbFaceRecord :=
  ⟨"Bela", "Rios", 22, "V-4", "1998-02-02", "scam", "10",
   [0, 0, 0], "img/b.jpg"⟩

/-- A manager state holding one frame queue (for camera id 0) with a
single buffered frame. -/
def cStQ : MgrState := ⟨[], [], [], [], [(0, ⟨2, [Frame.cap 3]⟩)]⟩

/-! ## Helper lemmas -/

theorem alGet_alSet_self {α : Type} (l : List (Nat × α)) (k : Nat) (v : α) :
    alGet (alSet l k v) k = some v := by
  induction l with
  | nil => simp [alGet, alSet]
  | cons p rest ih =>
    obtain ⟨k', v'⟩ := p
    by_cases h : k' = k <;> simp [alGet, alSet, h, ih]

theorem alGet_alSet_ne {α : Type} (l : List (Nat × α)) (k k' : Nat) (v : α)
    (h : k ≠ k') : alGet (alSet l k v) k' = alGet l k' := by
  induction l with
  | nil => simp [alGet, alSet, h]
  | cons p rest ih =>
    obtain ⟨k0, v0⟩ := p
    by_cases h0 : k0 = k
    · subst h0
      simp [alGet, alSet, h]
    · simp [alGet, alSet, h0, ih]

/-! ## C1: FrameBuffer publish / poll semantics -/

/-- C1, counterexample. The claim says publishing two frames into the
empty capacity-2 buffer before any poll makes the next poll return only
the second frame; in fact `queue.Queue` is FIFO, the buffer is not yet
full after two publishes, nothing is evicted, and the next poll returns
the FIRST frame. -/
theorem c1_two_publishes_poll_returns_first :
    ((publishFrame (publishFrame (emptyQueue Frame 2) (Frame.cap 1))
        (Frame.cap 2)).getNowait).1 = some (Frame.cap 1) ∧
    Frame.cap 1 ≠ Frame.cap 2 := by
  constructor
  · rfl
  · decide

/-- C1, amended. For the capacity-2 per-camera buffer: a publish is a
total function (never blocks); when the buffer is full it evicts the
oldest entry before inserting; a poll is total (non-blocking) and
returns the OLDEST available frame or none; publishing two frames into
the empty buffer then polling returns the first frame, a second poll
the second frame, while a third publish onto the full buffer evicts
the oldest. -/
theorem c1_framebuffer_fifo_drop_oldest (q : FrameQueue Frame)
    (x f1 f2 f3 : Frame) (hms : q.maxsize = 2) (hlen : q.items.length ≤ 2) :
    (q.isFull = true → publishFrame q x = ⟨2, q.items.tail ++ [x]⟩) ∧
    (q.isFull = false → publishFrame q x = ⟨2, q.items ++ [x]⟩) ∧
    (q.getNowait).1 = q.items.head? ∧
    (((publishFrame (publishFrame (emptyQueue Frame 2) f1) f2).getNowait).1
        = some f1 ∧
     ((((publishFrame (publishFrame (emptyQueue Frame 2) f1) f2).getNowait).2).getNowait).1
        = some f2 ∧
     publishFrame (publishFrame (publishFrame (emptyQueue Frame 2) f1) f2) f3
        = ⟨2, [f2, f3]⟩) := by
  obtain ⟨ms, items⟩ := q
  simp only at hms
  subst hms
  refine ⟨?_, ?_, ?_, ?_, ?_, ?_⟩
  · intro hfull
    have h2 : 2 ≤ items.length := by
      have := of_decide_eq_true hfull
      simpa [FrameQueue.isFull] using this.2
    have hlen2 : items.length = 2 := le_antisymm hlen h2
    obtain ⟨a, b, rfl⟩ := List.length_eq_two.mp hlen2
    simp [publishFrame, FrameQueue.isFull, FrameQueue.getNowait,
      FrameQueue.putNowait]
  · intro hnf
    simp only [FrameQueue.isFull, decide_eq_false_iff_not] at hnf
    have h2 : ¬ (2 : Nat) ≤ items.length := by
      intro hge
      exact hnf ⟨by omega, hge⟩
    simp [publishFrame, FrameQueue.isFull, FrameQueue.putNowait, h2]
  · cases items <;> rfl
  · rfl
  · rfl
  · rfl

/-- C1 witness: the amended theorem instantiated at the full buffer
`[cap 1, cap 2]`. -/
theorem c1_framebuffer_fifo_drop_oldest_witness :
    (FrameQueue.mk 2 [Frame.cap 1, Frame.cap 2] : FrameQueue Frame).maxsize = 2 ∧
    (FrameQueue.mk 2 [Frame.cap 1, Frame.cap 2] : FrameQueue Frame).items.length ≤ 2 ∧
    (((FrameQueue.mk 2 [Frame.cap 1, Frame.cap 2] : FrameQueue Frame).isFull = true →
      publishFrame (FrameQueue.mk 2 [Frame.cap 1, Frame.cap 2]) (Frame.cap 3)
        = ⟨2, [Frame.cap 1, Frame.cap 2].tail ++ [Frame.cap 3]⟩) ∧
     ((FrameQueue.mk 2 [Frame.cap 1, Frame.cap 2] : FrameQueue Frame).isFull = false →
      publishFrame (FrameQueue.mk 2 [Frame.cap 1, Frame.cap 2]) (Frame.cap 3)
        = ⟨2, [Frame.cap 1, Frame.cap 2] ++ [Frame.cap 3]⟩) ∧
     ((FrameQueue.mk 2 [Frame.cap 1, Frame.cap 2] : FrameQueue Frame).getNowait).1
        = [Frame.cap 1, Frame.cap 2].head? ∧
     (((publishFrame (publishFrame (emptyQueue Frame 2) (Frame.cap 4)) (Frame.cap 5)).getNowait).1
        = some (Frame.cap 4) ∧
      ((((publishFrame (publishFrame (emptyQueue Frame 2) (Frame.cap 4)) (Frame.cap 5)).getNowait).2).getNowait).1
        = some (Frame.cap 5) ∧
      publishFrame (publishFrame (publishFrame (emptyQueue Frame 2) (Frame.cap 4)) (Frame.cap 5)) (Frame.cap 6)
        = ⟨2, [Frame.cap 5, Frame.cap 6]⟩)) :=
  ⟨rfl, by decide,
   c1_framebuffer_fifo_drop_oldest ⟨2, [Frame.cap 1, Frame.cap 2]⟩
     (Frame.cap 3) (Frame.cap 4) (Frame.cap 5) (Frame.cap 6) rfl (by decide)⟩

/-! ## C10: `get_frame` is a destructive read -/

/-- C10: `get_frame` is a destructive read: it returns the head of the
camera's queue and leaves the queue without it, so after exactly one
publish a first poll returns the frame and an immediately following
second poll returns none. -/
theorem c10_get_frame_destructive (st : MgrState) (camId : Nat)
    (q : FrameQueue Frame) (f : Frame)
    (hq : alGet st.frameQueues camId = some q) :
    ((get_frame st camId).1 = q.items.head? ∧
     alGet ((get_frame st camId).2).frameQueues camId
        = some ⟨q.maxsize, q.items.tail⟩) ∧
    ((get_frame { st with frameQueues := alSet st.frameQueues camId (publishFrame (emptyQueue Frame 2) f) } camId).1
        = some f ∧
     (get_frame ((get_frame { st with frameQueues := alSet st.frameQueues camId (publishFrame (emptyQueue Frame 2) f) } camId).2) camId).1
        = none) := by
  obtain ⟨ms, items⟩ := q
  refine ⟨⟨?_, ?_⟩, ?_, ?_⟩
  · cases items <;> simp [get_frame, hq, FrameQueue.getNowait]
  · cases items <;> simp [get_frame, hq, FrameQueue.getNowait, alGet_alSet_self]
  · simp [get_frame, alGet_alSet_self, publishFrame, emptyQueue,
      FrameQueue.isFull, FrameQueue.putNowait, FrameQueue.getNowait]
  · simp [get_frame, alGet_alSet_self, publishFrame, emptyQueue,
      FrameQueue.isFull, FrameQueue.putNowait, FrameQueue.getNowait]

/-- C10 witness: a state holding one queue with a single frame. -/
theorem c10_get_frame_destructive_witness :
    alGet cStQ.frameQueues 0 = some ⟨2, [Frame.cap 3]⟩ ∧
    (((get_frame cStQ 0).1 = ([Frame.cap 3] : List Frame).head? ∧
      alGet ((get_frame cStQ 0).2).frameQueues 0
        = some ⟨2, ([Frame.cap 3] : List Frame).tail⟩) ∧
     ((get_frame { cStQ with frameQueues := alSet cStQ.frameQueues 0 (publishFrame (emptyQueue Frame 2) (Frame.cap 9)) } 0).1 = some (Frame.cap 9) ∧
      (get_frame ((get_frame { cStQ with frameQueues := alSet cStQ.frameQueues 0 (publishFrame (emptyQueue Frame 2) (Frame.cap 9)) } 0).2) 0).1 = none)) :=
  ⟨by decide,
   c10_get_frame_destructive cStQ 0 ⟨2, [Frame.cap 3]⟩ (Frame.cap 9) (by decide)⟩

/-! ## C7: consecutive-failure counter in the capture loop -/

/-- C7: in the capture loop, any successful read resets the
consecutive-failure counter to 0 — 9 failed reads then 1 success leave
the loop alive with counter 0 (and the frame published) — while 10
consecutive failed reads break the loop with no publish; the worker
whose reads all fail releases the device, and the camera's Status
`running` flag goes from true (thread alive) to false once the thread
function returns. -/
theorem c7_failure_counter_semantics (rot : Nat) (q : FrameQueue Frame)
    (f : Frame) (cfg : CameraConfig) (st : MgrState) (camId : Nat)
    (hc : alGet st.cameras camId = some cfg)
    (ht : alGet st.captureThreads camId = some true) :
    captureReadLoop rot q 0 (List.replicate 9 none ++ [some f])
      = ⟨publishFrame q (applyRot rot f), 0, false⟩ ∧
    captureReadLoop rot q 0 (List.replicate 10 none) = ⟨q, 10, true⟩ ∧
    (captureFrames (fun _ => true) (List.replicate 10 none) cfg q).brokeOnFailures
      = true ∧
    (captureFrames (fun _ => true) (List.replicate 10 none) cfg q).capReleased
      = true ∧
    (get_camera_status st camId).map CamStatus.running = some true ∧
    (get_camera_status (markThreadDead st camId) camId).map CamStatus.running
      = some false := by
  refine ⟨rfl, rfl, ?_, ?_, ?_, ?_⟩
  · simp [captureFrames, openLoop, captureReadLoop]
  · simp [captureFrames, openLoop]
  · simp [get_camera_status, hc, ht]
  · simp [markThreadDead, ht, get_camera_status, hc, alGet_alSet_self]

/-- C7 witness: a one-camera state with a live thread. -/
theorem c7_failure_counter_semantics_witness :
    alGet (MgrState.mk [(1, cCfg1)] [(1, true)] [] [] []).cameras 1 = some cCfg1 ∧
    alGet (MgrState.mk [(1, cCfg1)] [(1, true)] [] [] []).captureThreads 1 = some true ∧
    (captureReadLoop 0 (emptyQueue Frame 2) 0 (List.replicate 9 none ++ [some (Frame.cap 4)])
      = ⟨publishFrame (emptyQueue Frame 2) (applyRot 0 (Frame.cap 4)), 0, false⟩ ∧
     captureReadLoop 0 (emptyQueue Frame 2) 0 (List.replicate 10 none)
      = ⟨emptyQueue Frame 2, 10, true⟩ ∧
     (captureFrames (fun _ => true) (List.replicate 10 none) cCfg1 (emptyQueue Frame 2)).brokeOnFailures
      = true ∧
     (captureFrames (fun _ => true) (List.replicate 10 none) cCfg1 (emptyQueue Frame 2)).capReleased
      = true ∧
     (get_camera_status (MgrState.mk [(1, cCfg1)] [(1, true)] [] [] []) 1).map CamStatus.running
      = some true ∧
     (get_camera_status (markThreadDead (MgrState.mk [(1, cCfg1)] [(1, true)] [] [] []) 1) 1).map CamStatus.running
      = some false) :=
  ⟨by decide, by decide,
   c7_failure_counter_semantics 0 (emptyQueue Frame 2) (Frame.cap 4) cCfg1
     (MgrState.mk [(1, cCfg1)] [(1, true)] [] [] []) 1 (by decide) (by decide)⟩

/-! ## C2: Match against an empty gallery -/

/-- C2: for any non-empty face list, `recognize_faces` against an empty
gallery returns every face as unknown (`None`) with score exactly 0;
the early return fires before any similarity computation. -/
theorem c2_empty_gallery_unknown_zero (thr : ℚ) (faces : List Face)
    (hne : faces ≠ []) :
    recognizeFaces [] thr faces
      = faces.map (fun f => (f, none, Score.val 0 1)) := rfl

/-- C2 witness: a singleton face list. -/
theorem c2_empty_gallery_unknown_zero_witness :
    ([cFaceA] : List Face) ≠ [] ∧
    recognizeFaces [] (1/2) [cFaceA]
      = ([cFaceA] : List Face).map (fun f => (f, none, Score.val 0 1)) :=
  ⟨by decide, c2_empty_gallery_unknown_zero (1/2) [cFaceA] (by decide)⟩

/-! ## C3: starting a camera whose source fails to open -/

/-- C3, counterexample. For the configured camera 1 (a sentinel local
index) whose device never opens, `start_camera` returns `True` — the
open failure happens later, inside the thread — and a FrameBuffer for
id 1 exists in the registry, contradicting the claim that Start
reports failure and that no FrameBuffer is created. -/
theorem c3_start_reports_true_and_buffer_exists :
    (start_camera (fun _ => false) cStA 1).1 = true ∧
    alGet (start_camera (fun _ => false) cStA 1).2.frameQueues 1
      = some (emptyQueue Frame 2) ∧
    (captureFrames (fun _ => false) [] cCfg1 (emptyQueue Frame 2)).opened
      = false := by
  refine ⟨?_, ?_, ?_⟩ <;> decide

/-- C3, amended. For a configured, enabled camera that passes source
validation but whose device never opens: the capture worker makes
exactly 3 open attempts with 2 sleeps of the 2-second retry delay
between them, publishes nothing, releases the capture object and
exits; `start_camera` itself returns `True` (the failure is not
reported to the caller), the FrameBuffer created by `start_camera`
remains registered, and once the worker thread has exited the camera's
status shows `running = false`. -/
theorem c3_failed_open_semantics (netOk : String → Bool)
    (openOk : Nat → Bool) (st : MgrState) (camId : Nat)
    (cfg : CameraConfig) (reads : List (Option Frame)) (q : FrameQueue Frame)
    (hc : alGet st.cameras camId = some cfg)
    (he : cfg.enabled = true)
    (hv : validateCameraSource netOk cfg.source = true)
    (hopen : ∀ n, openOk n = false) :
    (start_camera netOk st camId).1 = true ∧
    alGet (start_camera netOk st camId).2.frameQueues camId
      = some (emptyQueue Frame 2) ∧
    captureFrames openOk reads cfg q = ⟨3, 2, false, q, 0, false, true⟩ ∧
    (get_camera_status (markThreadDead (start_camera netOk st camId).2 camId)
      camId).map CamStatus.running = some false := by
  have hcf : captureFrames openOk reads cfg q = ⟨3, 2, false, q, 0, false, true⟩ := by
    simp [captureFrames, openLoop, hopen 0, hopen 1, hopen 2]
  refine ⟨?_, ?_, hcf, ?_⟩ <;>
    by_cases hth : (alGet st.captureThreads camId).isSome <;>
      simp [start_camera, hc, he, hv, hth, cleanupCameraThread, markThreadDead,
        get_camera_status, alGet_alSet_self]

/-- C3 witness: camera 1 of `cStA`, with an always-failing opener. -/
theorem c3_failed_open_semantics_witness :
    alGet cStA.cameras 1 = some cCfg1 ∧
    cCfg1.enabled = true ∧
    validateCameraSource (fun _ => false) cCfg1.source = true ∧
    ((start_camera (fun _ => false) cStA 1).1 = true ∧
     alGet (start_camera (fun _ => false) cStA 1).2.frameQueues 1
       = some (emptyQueue Frame 2) ∧
     captureFrames (fun _ => false) [] cCfg1 (emptyQueue Frame 2)
       = ⟨3, 2, false, emptyQueue Frame 2, 0, false, true⟩ ∧
     (get_camera_status (markThreadDead (start_camera (fun _ => false) cStA 1).2 1)
       1).map CamStatus.running = some false) :=
  ⟨by decide, rfl, rfl,
   c3_failed_open_semantics (fun _ => false) (fun _ => false) cStA 1 cCfg1 []
     (emptyQueue Frame 2) (by decide) rfl rfl (fun _ => rfl)⟩

/-! ## C4: atomicity of `load_config` -/

theorem loadCams_all_valid (cams : List RawCam) : ∀ st : MgrState,
    (∀ r ∈ cams, (buildCameraConfig r).isSome = true) →
    loadCams st cams
      = (true, { st with cameras := cams.foldl insertRaw st.cameras }) := by
  induction cams with
  | nil => intro st h; rfl
  | cons r rest ih =>
    intro st h
    obtain ⟨cfg, hcfg⟩ := Option.isSome_iff_exists.mp (h r (by simp))
    have hrest : ∀ r2 ∈ rest, (buildCameraConfig r2).isSome = true := by
      intro r2 hr2
      exact h r2 (by simp [hr2])
    simp only [loadCams, hcfg, List.foldl_cons, insertRaw]
    exact ih _ hrest

theorem loadCams_partial (good : List RawCam) (bad : RawCam)
    (rest : List RawCam) : ∀ st : MgrState,
    (∀ r ∈ good, (buildCameraConfig r).isSome = true) →
    buildCameraConfig bad = none →
    loadCams st (good ++ bad :: rest)
      = (false, { st with cameras := good.foldl insertRaw st.cameras }) := by
  induction good with
  | nil =>
    intro st h hbad
    simp only [List.nil_append, loadCams, hbad, List.foldl_nil]
  | cons r grest ih =>
    intro st h hbad
    obtain ⟨cfg, hcfg⟩ := Option.isSome_iff_exists.mp (h r (by simp))
    have hrest : ∀ r2 ∈ grest, (buildCameraConfig r2).isSome = true := by
      intro r2 hr2
      exact h r2 (by simp [hr2])
    simp only [List.cons_append, loadCams, hcfg, List.foldl_cons, insertRaw]
    exact ih _ hrest hbad

/-- C4, counterexample. Loading a parsed document whose second camera
entry is malformed (missing `source`) from a state that previously held
camera 7: the load fails, but the previously loaded configuration is
NOT left unchanged — it has been cleared and partially repopulated with
the entry preceding the malformed one. -/
theorem c4_malformed_entry_partial_application :
    (load_config cStPrior (ConfigSrc.mapping [cRaw1, cRawBad])).1 = false ∧
    (load_config cStPrior (ConfigSrc.mapping [cRaw1, cRawBad])).2.cameras
      ≠ cStPrior.cameras ∧
    (load_config cStPrior (ConfigSrc.mapping [cRaw1, cRawBad])).2.cameras
      = [(1, cCfg1)] := by
  refine ⟨?_, ?_, ?_⟩ <;> decide

/-- C4, amended. `load_config` leaves the prior camera configuration
unchanged when the source is unreadable or fails YAML parsing (the
exception fires before any mutation), and a fully valid camera list
replaces the configuration wholesale; but when parsing succeeds and a
camera entry is malformed, the load fails AFTER `cameras.clear()` and
after the entries preceding the malformed one were applied — there is
no all-or-nothing guarantee at entry granularity. -/
theorem c4_load_config_failure_semantics (st : MgrState)
    (cams good rest : List RawCam) (bad : RawCam)
    (hcams : ∀ r ∈ cams, (buildCameraConfig r).isSome = true)
    (hgood : ∀ r ∈ good, (buildCameraConfig r).isSome = true)
    (hbad : buildCameraConfig bad = none) :
    load_config st ConfigSrc.ioError = (false, st) ∧
    load_config st (ConfigSrc.mapping cams)
      = (true, { st with cameras := cams.foldl insertRaw [] }) ∧
    load_config st (ConfigSrc.mapping (good ++ bad :: rest))
      = (false, { st with cameras := good.foldl insertRaw [] }) := by
  refine ⟨rfl, ?_, ?_⟩
  · simpa using loadCams_all_valid cams { st with cameras := [] } hcams
  · simpa using loadCams_partial good bad rest { st with cameras := [] } hgood hbad

/-- C4 witness: prior camera 7, a valid entry followed by a malformed
one. -/
theorem c4_load_config_failure_semantics_witness :
    buildCameraConfig cRawBad = none ∧
    (load_config cStPrior ConfigSrc.ioError = (false, cStPrior) ∧
     load_config cStPrior (ConfigSrc.mapping [cRaw1])
       = (true, { cStPrior with cameras := [cRaw1].foldl insertRaw [] }) ∧
     load_config cStPrior (ConfigSrc.mapping ([cRaw1] ++ cRawBad :: []))
       = (false, { cStPrior with cameras := [cRaw1].foldl insertRaw [] })) :=
  ⟨by decide,
   c4_load_config_failure_semantics cStPrior [cRaw1] [cRaw1] [] cRawBad
     (by decide) (by decide) (by decide)⟩

/-! ## C8: operations on camera ids not in the current configuration -/

/-- C8, counterexample. Start camera 1, then reload a configuration in
which camera 1 no longer appears: id 1 is not in the current
configuration, yet `stop_camera(1)` finds the leftover worker
registration and returns `True`, not the deterministic not-found
`False` the claim requires. -/
theorem c8_stale_worker_stop_returns_true :
    alGet cStC.cameras 1 = none ∧
    (stop_camera cStC 1).1 = true := by
  refine ⟨?_, ?_⟩ <;> decide

/-- C8, amended. For a camera id not present in the current
configuration: `start_camera` returns `False` and `get_camera_status`
returns the empty status, unconditionally; `stop_camera` returns
`False` and `get_frame` returns no frame provided no worker thread
(resp. frame queue) is still registered under that id from an earlier
configuration. None of the four operations raises: each is a total
function on the state. -/
theorem c8_unknown_id_outcomes (netOk : String → Bool) (st : MgrState)
    (camId : Nat) (hc : alGet st.cameras camId = none) :
    start_camera netOk st camId = (false, st) ∧
    get_camera_status st camId = none ∧
    (alGet st.captureThreads camId = none →
      stop_camera st camId = (false, st)) ∧
    (alGet st.frameQueues camId = none →
      get_frame st camId = (none, st)) := by
  refine ⟨?_, ?_, ?_, ?_⟩
  · simp [start_camera, hc]
  · simp [get_camera_status, hc]
  · intro ht
    simp [stop_camera, ht]
  · intro hq
    simp [get_frame, hq]

/-- C8 witness: id 2 is absent from `cStA`'s configuration and
registries. -/
theorem c8_unknown_id_outcomes_witness :
    alGet cStA.cameras 2 = none ∧
    (start_camera (fun _ => false) cStA 2 = (false, cStA) ∧
     get_camera_status cStA 2 = none ∧
     (alGet cStA.captureThreads 2 = none →
       stop_camera cStA 2 = (false, cStA)) ∧
     (alGet cStA.frameQueues 2 = none →
       get_frame cStA 2 = (none, cStA))) :=
  ⟨by decide, c8_unknown_id_outcomes (fun _ => false) cStA 2 (by decide)⟩

/-! ## C5: zero-norm embeddings in `recognize_faces` -/

theorem foldl_bestStep_nan (k : KnownFace) (l : List (KnownFace × Score)) :
    l.foldl bestStep (k, Score.nan) = (k, Score.nan) := by
  induction l with
  | nil => rfl
  | cons x rest ih => simpa [bestStep] using ih

/-- Under the guards the `except` path cannot fire, and
`recognize_faces` on a single face is the per-face loop body. -/
theorem recognizeFaces_guarded (k0 : KnownFace) (ks : List KnownFace)
    (thr : ℚ) (f : Face)
    (hw : sameWidths (k0 :: ks) = true)
    (hfl : f.embedding.length = galleryWidth (k0 :: ks))
    (hfe : f.embedding ≠ []) :
    recognizeFaces (k0 :: ks) thr [f] = [recognizeOne (k0 :: ks) thr f] := by
  have hie : f.embedding.isEmpty = false := by
    cases hE : f.embedding with
    | nil => exact absurd hE hfe
    | cons a l => rfl
  simp [recognizeFaces, hw, hfl, hie]

/-- C5, counterexample. A face with the nonempty zero-norm embedding
`[0]` against the gallery `[cKnownA]` (embedding `[1]`): the guard
`len(embedding) == 0` does not catch it, every similarity is the float
`0.0 / 0.0 = nan`, and the face is reported unknown with score `nan`,
not with score exactly 0 as the claim states. -/
theorem c5_zero_norm_score_is_nan :
    recognizeFaces [cKnownA] (1/2) [cFaceZero]
      = [(cFaceZero, none, Score.nan)] ∧
    Score.nan ≠ Score.val 0 1 := by
  refine ⟨?_, by decide⟩
  have hsim : cosineSim [(1 : ℚ)] [(0 : ℚ)] = Score.nan := by
    norm_num [cosineSim, dotQ, List.zipWith]
  simp [recognizeFaces, sameWidths, galleryWidth, cKnownA, cFaceZero,
    recognizeOne, bestMatch, hsim, Score.gtq]

/-- C5, amended. Similarity is cosine similarity
`dot(a,b) / (|a| * |b|)`; a `None` or zero-LENGTH embedding is
short-circuited to unknown with score exactly 0, but a nonempty
zero-NORM embedding reaches the division, every similarity evaluates
to the float `nan` (division of 0 by the zero norm), and the face is
reported unknown with score `nan` — still never matched, since a
comparison of `nan` with any threshold is false, but the score is not
0 and the division does produce a non-number. -/
theorem c5_zero_norm_unknown_nan (k0 : KnownFace) (ks : List KnownFace)
    (thr : ℚ) (f : Face)
    (hw : sameWidths (k0 :: ks) = true)
    (hfl : f.embedding.length = galleryWidth (k0 :: ks))
    (hfe : f.embedding ≠ [])
    (hz : dotQ f.embedding f.embedding = 0) :
    recognizeFaces (k0 :: ks) thr [f] = [(f, none, Score.nan)] ∧
    Score.gtq Score.nan thr = false := by
  refine ⟨?_, rfl⟩
  rw [recognizeFaces_guarded k0 ks thr f hw hfl hfe]
  have hie : f.embedding.isEmpty = false := by
    cases hE : f.embedding with
    | nil => exact absurd hE hfe
    | cons a l => rfl
  have hsim : cosineSim k0.embedding f.embedding = Score.nan := by
    simp [cosineSim, hz]
  simp [recognizeOne, hie, bestMatch, hsim, foldl_bestStep_nan, Score.gtq]

/-- C5 witness: the zero-norm face `[0]` against the gallery
`[cKnownA]`. -/
theorem c5_zero_norm_unknown_nan_witness :
    sameWidths [cKnownA] = true ∧
    cFaceZero.embedding.length = galleryWidth [cKnownA] ∧
    cFaceZero.embedding ≠ [] ∧
    dotQ cFaceZero.embedding cFaceZero.embedding = 0 ∧
    (recognizeFaces [cKnownA] (3/4) [cFaceZero]
       = [(cFaceZero, none, Score.nan)] ∧
     Score.gtq Score.nan (3/4) = false) :=
  ⟨rfl, rfl, by decide, by norm_num [dotQ, cFaceZero, List.zipWith],
   c5_zero_norm_unknown_nan cKnownA [] (3/4) cFaceZero rfl rfl (by decide)
     (by norm_num [dotQ, cFaceZero, List.zipWith])⟩

/-! ## C9: lowering the recognition threshold -/

/-- C9, counterexample. Against the EMPTY gallery, a face is reported
unknown with score exactly 0 under threshold 1/2; the threshold -1 is
strictly below that score, yet under threshold -1 the face is still
reported unknown (there is no identity to match), so lowering the
threshold below the reported score does not produce a match. -/
theorem c9_empty_gallery_lowering_no_match :
    recognizeFaces [] (1/2) [cFaceA] = [(cFaceA, none, Score.val 0 1)] ∧
    Score.gtq (Score.val 0 1) (-1) = true ∧
    recognizeFaces [] (-1) [cFaceA] = [(cFaceA, none, Score.val 0 1)] := by
  refine ⟨rfl, ?_, rfl⟩
  norm_num [Score.gtq]

/-- C9, amended. For a fixed face whose nonempty embedding matches the
width of a fixed nonempty, width-consistent gallery: if
`recognize_faces` under threshold `t1` reports the face unknown with
best similarity `s`, then under any threshold `t2` with `s > t2` it
reports the face matched to the first best-similarity identity with
the same score `s`, and nothing else in the (single-face) result
changes. The threshold is a parameter of the call, independent of the
gallery. -/
theorem c9_threshold_monotone (k0 : KnownFace) (ks : List KnownFace)
    (t1 t2 : ℚ) (f : Face) (s : Score)
    (hw : sameWidths (k0 :: ks) = true)
    (hfl : f.embedding.length = galleryWidth (k0 :: ks))
    (hfe : f.embedding ≠ [])
    (h1 : recognizeFaces (k0 :: ks) t1 [f] = [(f, none, s)])
    (h2 : Score.gtq s t2 = true) :
    ∃ k : KnownFace, recognizeFaces (k0 :: ks) t2 [f] = [(f, some k, s)] := by
  have hie : f.embedding.isEmpty = false := by
    cases hE : f.embedding with
    | nil => exact absurd hE hfe
    | cons a l => rfl
  rw [recognizeFaces_guarded k0 ks t1 f hw hfl hfe] at h1
  rw [recognizeFaces_guarded k0 ks t2 f hw hfl hfe]
  have h1' : recognizeOne (k0 :: ks) t1 f = (f, none, s) := by
    exact List.singleton_injective h1
  rcases hB : List.foldl bestStep (k0, cosineSim k0.embedding f.embedding)
      (ks.map (fun k => (k, cosineSim k.embedding f.embedding))) with ⟨kb, sb⟩
  have hbm : bestMatch ((k0 :: ks).map (fun k => (k, cosineSim k.embedding f.embedding)))
      = some (kb, sb) := by
    simp [bestMatch, hB]
  have hro : ∀ t : ℚ, recognizeOne (k0 :: ks) t f
      = if sb.gtq t then (f, some kb, sb) else (f, none, sb) := by
    intro t
    simp only [recognizeOne, hie, Bool.false_eq_true, if_false, hbm]
  rw [hro t1] at h1'
  by_cases hgt : sb.gtq t1 = true
  · rw [if_pos hgt] at h1'
    simp at h1'
  · have hgf : sb.gtq t1 = false := by simpa using hgt
    rw [if_neg (by simp [hgf])] at h1'
    have hs : sb = s := congrArg (fun x => x.2.2) h1'
    refine ⟨kb, ?_⟩
    rw [hro t2, if_pos (by rw [hs]; exact h2), hs]

/-- C9 witness: gallery `[cKnownA]`, face `cFaceA` (equal embeddings,
similarity 1), thresholds 2 and 1/2. -/
theorem c9_threshold_monotone_witness :
    sameWidths [cKnownA] = true ∧
    cFaceA.embedding.length = galleryWidth [cKnownA] ∧
    cFaceA.embedding ≠ [] ∧
    recognizeFaces [cKnownA] 2 [cFaceA] = [(cFaceA, none, Score.val 1 1)] ∧
    Score.gtq (Score.val 1 1) (1/2) = true ∧
    (∃ k : KnownFace,
      recognizeFaces [cKnownA] (1/2) [cFaceA] = [(cFaceA, some k, Score.val 1 1)]) :=
  ⟨rfl, rfl, by decide,
   by
     have hsim : cosineSim [(1 : ℚ)] [(1 : ℚ)] = Score.val 1 1 := by
       norm_num [cosineSim, dotQ, List.zipWith]
     have hgt : Score.gtq (Score.val 1 1) 2 = false := by
       norm_num [Score.gtq]
     simp [recognizeFaces, sameWidths, galleryWidth, cKnownA, cFaceA,
       recognizeOne, bestMatch, hsim, hgt],
   by norm_num [Score.gtq],
   c9_threshold_monotone cKnownA [] 2 (1/2) cFaceA (Score.val 1 1) rfl rfl
     (by decide)
     (by
       have hsim : cosineSim [(1 : ℚ)] [(1 : ℚ)] = Score.val 1 1 := by
         norm_num [cosineSim, dotQ, List.zipWith]
       have hgt : Score.gtq (Score.val 1 1) 2 = false := by
         norm_num [Score.gtq]
       simp [recognizeFaces, sameWidths, galleryWidth, cKnownA, cFaceA,
         recognizeOne, bestMatch, hsim, hgt])
     (by norm_num [Score.gtq])⟩

/-! ## C6: gallery reload from the database -/

theorem loadDbRows_eq_filter_map (dec : List Nat → List ℚ) :
    ∀ rows : List DbFaceRecord,
    loadDbRows dec rows
      = (rows.filter (fun r => frombufferOk r.embedding)).map (toKnownFace dec) := by
  intro rows
  induction rows with
  | nil => rfl
  | cons r rest ih =>
    by_cases h : frombufferOk r.embedding = true
    · simp [loadDbRows, h, List.filter_cons, ih]
    · have h' : frombufferOk r.embedding = false := by simpa using h
      simp [loadDbRows, h', List.filter_cons, ih]

/-- C6, counterexample. A reload batch holding an 8-byte (2-float)
embedding and a 4-byte (1-float) embedding: the wrong-dimensionality
entry is NOT excluded — the reloaded gallery contains both rows, with
mismatched embedding lengths, because `load_known_faces_from_db`
performs no dimensionality check (`np.frombuffer` only rejects byte
lengths that are not a multiple of 4). -/
theorem c6_wrong_dimension_entry_included :
    reloadGalleryFromDb decZeros [] (some [cDbGood, cDbWrongDim])
      = [toKnownFace decZeros cDbGood, toKnownFace decZeros cDbWrongDim] ∧
    (toKnownFace decZeros cDbWrongDim).embedding.length
      ≠ (toKnownFace decZeros cDbGood).embedding.length := by
  refine ⟨?_, ?_⟩ <;> decide

/-- C6, amended. A reload keeps exactly the rows whose embedding blob
`np.frombuffer` accepts (byte length a multiple of 4), in order — a
row is skipped per-entry, never fatally, only for that reason, so an
entry of the wrong dimensionality but well-formed byte length is NOT
excluded; and whenever at least one row of the batch is decodable the
reloaded gallery is nonempty. (Prior gallery entries never survive a
reload: the gallery is cleared first.) -/
theorem c6_reload_keeps_decodable_rows (dec : List Nat → List ℚ)
    (prior : List KnownFace) (rows : List DbFaceRecord) (r0 : DbFaceRecord)
    (h0 : r0 ∈ rows) (hok : frombufferOk r0.embedding = true) :
    reloadGalleryFromDb dec prior (some rows)
      = (rows.filter (fun r => frombufferOk r.embedding)).map (toKnownFace dec) ∧
    reloadGalleryFromDb dec prior (some rows) ≠ [] := by
  have he : reloadGalleryFromDb dec prior (some rows)
      = (rows.filter (fun r => frombufferOk r.embedding)).map (toKnownFace dec) :=
    loadDbRows_eq_filter_map dec rows
  refine ⟨he, ?_⟩
  rw [he]
  intro hempty
  have hmem : r0 ∈ rows.filter (fun r => frombufferOk r.embedding) :=
    List.mem_filter.mpr ⟨h0, hok⟩
  rw [List.map_eq_nil_iff] at hempty
  rw [hempty] at hmem
  exact List.not_mem_nil r0 hmem

/-- C6 witness: a batch with two decodable rows (one of divergent
dimensionality) and one undecodable row. -/
theorem c6_reload_keeps_decodable_rows_witness :
    cDbGood ∈ [cDbGood, cDbWrongDim, cDbBadLen] ∧
    frombufferOk cDbGood.embedding = true ∧
    (reloadGalleryFromDb decZeros [] (some [cDbGood, cDbWrongDim, cDbBadLen])
       = (([cDbGood, cDbWrongDim, cDbBadLen].filter
            (fun r => frombufferOk r.embedding)).map (toKnownFace decZeros)) ∧
     reloadGalleryFromDb decZeros [] (some [cDbGood, cDbWrongDim, cDbBadLen]) ≠ []) :=
  ⟨by decide, by decide,
   c6_reload_keeps_decodable_rows decZeros [] [cDbGood, cDbWrongDim, cDbBadLen]
     cDbGood (by decide) (by decide)⟩
